import Mathlib

/-!
Verification of the adaptive-difficulty learning engine of the
perfect-pitch application: the Mastery Tracker
(`src/engine/ProgressTracker.js` plus `src/constants/notes.js`) and the
Phase State Machine (`src/engine/PhaseManager.js`).

The JavaScript state objects are modelled as Lean structures; the
string-keyed JS objects (`noteProgress` and its per-note maps) are
modelled as association lists with JS object-spread update semantics;
JS numbers holding accuracies and weights are modelled as rationals
(every number produced here is a quotient of small naturals compared
against the thresholds 0.8, 0.5 and 0.1, so IEEE doubles and exact
rationals order these values identically); `Math.random()` is modelled
as an explicit rational parameter.
-/

set_option autoImplicit false

namespace PerfectPitch

/-- Association list keyed by strings, modelling a JS object used as a map. -/
abbrev AList (α : Type) := List (String × α)

/-- Lookup of a key in a JS object: `obj[key]`, `undefined` becomes `none`. -/
def alookup {α : Type} : AList α → String → Option α
  | [], _ => none
  | (k, v) :: rest, key => if k = key then some v else alookup rest key

/-- Functional update of a JS object: `{...obj, [key]: v}` sets or replaces the binding. -/
def aset {α : Type} : AList α → String → α → AList α
  | [], key, v => [(key, v)]
  | (k, w) :: rest, key, v =>
      if k = key then (k, v) :: rest else (k, w) :: aset rest key v

/-- From `src/constants/notes.js`: order in which notes are introduced to the player. -/
def NOTE_INTRODUCTION_ORDER : List String :=
  ["C4", "G4", "E4", "A4", "D4", "F4", "B4", "Bb4", "F#4", "Eb4", "C#4", "Ab4"]

/-- From `src/constants/notes.js`: instruments in order of introduction. -/
def INSTRUMENTS : List String := ["piano", "xylophone", "guitar-acoustic"]

/-- Shape of the `MASTERY_THRESHOLDS` constant object. -/
structure MasteryThresholds where
  promotionAccuracy : ℚ
  promotionStreak : Nat
  demotionAccuracy : ℚ
  rollingWindow : Nat
  maxActiveNotes : Nat
deriving DecidableEq

/-- From `src/constants/notes.js`: thresholds for the adaptive difficulty system. -/
def MASTERY_THRESHOLDS : MasteryThresholds :=
  { promotionAccuracy := 4 / 5
    promotionStreak := 3
    demotionAccuracy := 1 / 2
    rollingWindow := 10
    maxActiveNotes := 6 }

/-- Per-note, per-instrument progress record of `ProgressTracker.js`. -/
structure NoteProgress where
  attempts : Nat
  correct : Nat
  streak : Nat
  /-- Booleans, most recent last, capped at 10. -/
  recentResults : List Bool
deriving DecidableEq

/-- Whole tracker state of `ProgressTracker.js`.

The `introducedCombos` field is modelled from the spec: the revision of
`ProgressTracker.js` under `src/` predates combo-introduction tracking
(the game-phase hook imports `isComboIntroduced` / `markComboIntroduced`
from the engine, but their implementation is absent from the sources); the
spec describes the field as a set of (note, instrument) pairs. -/
structure ProgressState where
  noteProgress : AList (AList NoteProgress)
  activeNotes : List String
  activeInstruments : List String
  currentStage : Nat
  sessionsPlayed : Nat
  introducedCombos : List (String × String)
deriving DecidableEq

/-- `createNoteProgress`: fresh per-note, per-instrument progress. -/
def createNoteProgress : NoteProgress :=
  { attempts := 0, correct := 0, streak := 0, recentResults := [] }

/-- `createInitialState`: first two notes of the introduction order active on piano. -/
def createInitialState : ProgressState :=
  let initialNotes := NOTE_INTRODUCTION_ORDER.take 2
  let initialInstruments := ["piano"]
  { noteProgress :=
      initialNotes.map fun note =>
        (note, initialInstruments.map fun instrument => (instrument, createNoteProgress))
    activeNotes := initialNotes
    activeInstruments := initialInstruments
    currentStage := 1
    sessionsPlayed := 0
    introducedCombos := [] }

/-- Body of `recordAnswer` acting on the single affected `NoteProgress`:
append to `recentResults` (shift the oldest entry off when the cap of
`rollingWindow` is exceeded), reset or increment `streak`, bump counters. -/
def stepProgress (p : NoteProgress) (wasCorrect : Bool) : NoteProgress :=
  let appended := p.recentResults ++ [wasCorrect]
  let newRecentResults :=
    if MASTERY_THRESHOLDS.rollingWindow < appended.length then appended.tail else appended
  { attempts := p.attempts + 1
    correct := p.correct + (if wasCorrect then 1 else 0)
    streak := if wasCorrect then p.streak + 1 else 0
    recentResults := newRecentResults }

/-- `recordAnswer(state, note, instrument, wasCorrect)`: record an answer and
return the updated state (missing progress entries are created fresh). -/
def recordAnswer (state : ProgressState) (note instrument : String)
    (wasCorrect : Bool) : ProgressState :=
  let existingNoteProgress := (alookup state.noteProgress note).getD []
  let existingInstrumentProgress :=
    (alookup existingNoteProgress instrument).getD createNoteProgress
  { state with
    noteProgress :=
      aset state.noteProgress note
        (aset existingNoteProgress instrument (stepProgress existingInstrumentProgress wasCorrect)) }

/-- `getRollingAccuracy(noteProgress)`: fraction of `true` entries in
`recentResults`, `0` for an empty window. -/
def getRollingAccuracy (p : NoteProgress) : ℚ :=
  if p.recentResults.length = 0 then 0
  else (p.recentResults.count true : ℚ) / (p.recentResults.length : ℚ)

/-- `isNoteMastered(noteProgress)`: rolling accuracy at least
`promotionAccuracy` and streak at least `promotionStreak`. -/
def isNoteMastered (p : NoteProgress) : Bool :=
  decide (MASTERY_THRESHOLDS.promotionAccuracy ≤ getRollingAccuracy p) &&
    decide (MASTERY_THRESHOLDS.promotionStreak ≤ p.streak)

/-- Reading `state.noteProgress[note]?.[instrument]` as done throughout the tracker. -/
def lookupProgress (state : ProgressState) (note instrument : String) : Option NoteProgress :=
  alookup ((alookup state.noteProgress note).getD []) instrument

/-- The combination `progress && isNoteMastered(progress)` used by
`getEligibleInstruments`, `checkPromotion` and `canAddNewNote`: a missing
entry counts as not mastered. -/
def comboMastered (state : ProgressState) (note instrument : String) : Bool :=
  match lookupProgress state note instrument with
  | some p => isNoteMastered p
  | none => false

/-- Loop body of `getEligibleInstruments`: walking the instrument order,
instrument `i` is appended only when the note is mastered on instrument
`i - 1`; the walk stops at the first non-mastered instrument. -/
def eligChain (np : AList NoteProgress) : List String → List String
  | prev :: next :: rest =>
      match alookup np prev with
      | some p => if isNoteMastered p then next :: eligChain np (next :: rest) else []
      | none => []
  | _ => []

/-- `getEligibleInstruments(state, note)`: the first instrument is always
eligible; each later instrument only once the note is mastered on the
previous one. -/
def getEligibleInstruments (state : ProgressState) (note : String) : List String :=
  let np := (alookup state.noteProgress note).getD []
  INSTRUMENTS.take 1 ++ eligChain np INSTRUMENTS

/-- Result shape of `getWeightedNoteSelection`: the JS function either throws
(`.error`) or returns a note name (`.ok`). -/
abbrev SelectionResult := Except String String

/-- Weight of a note in `getWeightedNoteSelection`: `1.0` when it has no
progress entry or zero attempts on the instrument, otherwise
`max(0.1, 1 - accuracy)`. -/
def noteWeight (state : ProgressState) (instrument note : String) : ℚ :=
  match lookupProgress state note instrument with
  | none => 1
  | some progress =>
      if progress.attempts = 0 then 1
      else max (1 / 10) (1 - getRollingAccuracy progress)

/-- Drawing loop of `getWeightedNoteSelection`: subtract weights in list
order from the scaled random value until the remainder is `≤ 0`. -/
def drawWeighted : List (String × ℚ) → ℚ → Option String
  | [], _ => none
  | (note, w) :: rest, remaining =>
      if remaining - w ≤ 0 then some note else drawWeighted rest (remaining - w)

/-- `getWeightedNoteSelection(state, instrument)` with `Math.random()` made
an explicit parameter `rand`: error on an empty active set, the unique note
for a singleton set, otherwise a weighted draw with fallback to the last
active note. -/
def getWeightedNoteSelection (state : ProgressState) (instrument : String)
    (rand : ℚ) : SelectionResult :=
  if state.activeNotes.length = 0 then
    .error "No active notes to select from"
  else if state.activeNotes.length = 1 then
    .ok (state.activeNotes.headI)
  else
    let weights := state.activeNotes.map (noteWeight state instrument)
    let totalWeight := weights.foldl (· + ·) 0
    match drawWeighted (state.activeNotes.zip weights) (rand * totalWeight) with
    | some note => .ok note
    | none => .ok ((state.activeNotes.getLast?).getD "")

/-- Return shape of `checkPromotion`. -/
structure PromotionCheck where
  shouldPromote : Bool
  nextNote : Option String
deriving DecidableEq

/-- Mastery scan of `checkPromotion` and `canAddNewNote`: the JS loop
returns false at the first active note with an eligible instrument whose
progress entry is missing or not mastered, hence succeeds exactly when
every active note is mastered on every eligible instrument. -/
def allActiveMastered (state : ProgressState) : Bool :=
  state.activeNotes.all fun note =>
    (getEligibleInstruments state note).all fun instrument =>
      comboMastered state note instrument

/-- `checkPromotion(state)`: refuse at `maxActiveNotes` or when every
introduction-order note is already active; otherwise promote the first
introduction-order note not yet active, provided the whole active set is
mastered on its eligible instruments. -/
def checkPromotion (state : ProgressState) : PromotionCheck :=
  if MASTERY_THRESHOLDS.maxActiveNotes ≤ state.activeNotes.length then
    { shouldPromote := false, nextNote := none }
  else
    match NOTE_INTRODUCTION_ORDER.find? (fun note => !(state.activeNotes.contains note)) with
    | none => { shouldPromote := false, nextNote := none }
    | some nextNote =>
        if allActiveMastered state then
          { shouldPromote := true, nextNote := some nextNote }
        else
          { shouldPromote := false, nextNote := none }

/-- Loop of `applyPromotion` building the new note's per-instrument map:
start from the existing entries (history of a previously demoted note) and
create zeroed entries for active instruments that lack one. -/
def fillInstruments (existing : AList NoteProgress) (instruments : List String) : AList NoteProgress :=
  instruments.foldl
    (fun acc instrument =>
      if (alookup acc instrument).isNone then aset acc instrument createNoteProgress else acc)
    existing

/-- `applyPromotion(state)`: no-op unless `checkPromotion` fires; otherwise
append the next note, reuse or create its progress entries, and increment
`currentStage`. -/
def applyPromotion (state : ProgressState) : ProgressState :=
  let check := checkPromotion state
  match check.shouldPromote, check.nextNote with
  | true, some nextNote =>
      let existingProgress := (alookup state.noteProgress nextNote).getD []
      let newNoteProgress := fillInstruments existingProgress state.activeInstruments
      { state with
        activeNotes := state.activeNotes ++ [nextNote]
        noteProgress := aset state.noteProgress nextNote newNoteProgress
        currentStage := state.currentStage + 1 }
  | _, _ => state

/-- Return shape of `checkDemotion`. -/
structure DemotionCheck where
  shouldDemote : Bool
  noteToRemove : Option String
deriving DecidableEq

/-- Inner test of `checkDemotion`: the note has a progress entry on the
instrument with at least one recorded result and rolling accuracy strictly
below `demotionAccuracy`. -/
def belowDemotion (state : ProgressState) (note instrument : String) : Bool :=
  match lookupProgress state note instrument with
  | some p =>
      decide (0 < p.recentResults.length) &&
        decide (getRollingAccuracy p < MASTERY_THRESHOLDS.demotionAccuracy)
  | none => false

/-- `checkDemotion(state)`: never below 3 active notes; otherwise fire when
any active note on any active instrument is below the demotion threshold,
removing the last (most recently added) active note. -/
def checkDemotion (state : ProgressState) : DemotionCheck :=
  if state.activeNotes.length ≤ 2 then
    { shouldDemote := false, noteToRemove := none }
  else
    let shouldDemote := state.activeNotes.any fun note =>
      state.activeInstruments.any fun instrument => belowDemotion state note instrument
    if shouldDemote then
      { shouldDemote := true, noteToRemove := state.activeNotes.getLast? }
    else
      { shouldDemote := false, noteToRemove := none }

/-- `applyDemotion(state, noteToRemove)`: no-op at two or fewer active
notes or when the note is not active; otherwise drop the note from
`activeNotes` (progress is kept) and decrement `currentStage`, floored at 1. -/
def applyDemotion (state : ProgressState) (noteToRemove : String) : ProgressState :=
  if state.activeNotes.length ≤ 2 then state
  else if !(state.activeNotes.contains noteToRemove) then state
  else
    { state with
      activeNotes := state.activeNotes.filter (fun note => note != noteToRemove)
      currentStage := max 1 (state.currentStage - 1) }

/-- Modelled from the spec: `isComboIntroduced(state, note, instrument)` is
imported by the game-phase hook from the engine module, but its
implementation is absent from the sources; the spec says it "tests set
membership" of the pair in `introducedCombos`. -/
def isComboIntroduced (state : ProgressState) (note instrument : String) : Bool :=
  decide ((note, instrument) ∈ state.introducedCombos)

/-- Modelled from the spec: `markComboIntroduced` "returns a state with the
pair added" to the `introducedCombos` set and has no effect on mastery
arithmetic; its implementation is absent from the sources. -/
def markComboIntroduced (state : ProgressState) (note instrument : String) : ProgressState :=
  { state with
    introducedCombos :=
      if (note, instrument) ∈ state.introducedCombos then state.introducedCombos
      else state.introducedCombos ++ [(note, instrument)] }

/-! Phase State Machine, from `src/engine/PhaseManager.js` (the revision of
this module carried alongside its test file in the sources). Only the
pieces the claims exercise are embedded in full: session state creation,
`startQuizPhase` and `answerQuiz`; the listen/explore/result payloads are
carried so that the object spreads keep them intact exactly as in the JS. -/

/-- The `PHASES` constants. -/
inductive Phase where
  | LISTEN
  | EXPLORE
  | QUIZ
  | RESULT
deriving DecidableEq

/-- Listen-phase payload. -/
structure ListenState where
  activeNotes : List String
  currentIndex : Nat
  isComplete : Bool
deriving DecidableEq

/-- Explore-phase payload (`startTime` is the `Date.now()` stamp). -/
structure ExploreState where
  tapCount : Nat
  startTime : Nat
  isComplete : Bool
deriving DecidableEq

/-- One entry of the quiz `results` array. -/
structure QuizResultEntry where
  round : Nat
  question : String
  answer : String
  correct : Bool
deriving DecidableEq

/-- Quiz-phase payload. -/
structure QuizState where
  activeNotes : List String
  currentQuestion : String
  roundNumber : Nat
  totalRounds : Nat
  results : List QuizResultEntry
  isComplete : Bool
deriving DecidableEq

/-- Result-phase payload. -/
structure ResultState where
  correctCount : Nat
  totalCount : Nat
  accuracy : ℚ
  results : List QuizResultEntry
  exploreTapCount : Nat
deriving DecidableEq

/-- Whole `PhaseManager` game state: a phase tag plus the four per-phase
payloads, each `null` until its phase has been started. -/
structure GameState where
  phase : Option Phase
  listen : Option ListenState
  explore : Option ExploreState
  quiz : Option QuizState
  result : Option ResultState
deriving DecidableEq

/-- `createInitialState()` of `PhaseManager.js`: null phase, null payloads. -/
def createInitialGameState : GameState :=
  { phase := none, listen := none, explore := none, quiz := none, result := none }

/-- `selectRandomNote(notes)` with `Math.random()` made the explicit
parameter `rand`: the element at index `floor(rand * notes.length)`; the
out-of-range accesses JS would answer with `undefined` are mapped to the
marker string `"undefined"`. -/
def selectRandomNote (notes : List String) (rand : ℚ) : String :=
  notes.getD (Rat.floor (rand * notes.length)).toNat "undefined"

/-- `startQuizPhase(state, activeNotes, totalRounds)`: requires a non-empty
note list and at least one round, then enters the quiz phase with a first
random question, round 1 and empty results. -/
def startQuizPhase (state : GameState) (activeNotes : List String)
    (totalRounds : Nat) (rand : ℚ) : Except String GameState :=
  if activeNotes.length = 0 then
    .error "activeNotes must be a non-empty array"
  else if totalRounds < 1 then
    .error "totalRounds must be at least 1"
  else
    .ok
      { state with
        phase := some Phase.QUIZ
        quiz := some
          { activeNotes := activeNotes
            currentQuestion := selectRandomNote activeNotes rand
            roundNumber := 1
            totalRounds := totalRounds
            results := []
            isComplete := false } }

/-- Return shape of `answerQuiz`. -/
structure AnswerOutcome where
  state : GameState
  correct : Bool
  correctNote : String
  status : String
deriving DecidableEq

/-- `answerQuiz(state, noteTapped)` with the `Math.random()` of the
next-question draw made the explicit parameter `rand`: throws outside the
quiz phase (and on the missing-payload access JS would crash on), records
the comparison with `currentQuestion`, and either advances the round with a
fresh question or, on the last round, marks the quiz complete leaving round
and question untouched. -/
def answerQuiz (state : GameState) (noteTapped : String) (rand : ℚ) :
    Except String AnswerOutcome :=
  if state.phase ≠ some Phase.QUIZ then
    .error "Cannot answer quiz in this phase"
  else
    match state.quiz with
    | none => .error "quiz payload is null"
    | some quiz =>
        let correct := noteTapped == quiz.currentQuestion
        let correctNote := quiz.currentQuestion
        let newResults := quiz.results ++
          [{ round := quiz.roundNumber
             question := quiz.currentQuestion
             answer := noteTapped
             correct := correct }]
        let isLastRound := quiz.totalRounds ≤ quiz.roundNumber
        let nextQuestion :=
          if isLastRound then quiz.currentQuestion
          else selectRandomNote quiz.activeNotes rand
        .ok
          { state :=
              { state with
                quiz := some
                  { quiz with
                    currentQuestion := nextQuestion
                    roundNumber := if isLastRound then quiz.roundNumber else quiz.roundNumber + 1
                    results := newResults
                    isComplete := isLastRound } }
            correct := correct
            correctNote := correctNote
            status := if isLastRound then "complete" else "continue" }

/-! Derived forms and concrete scenario states used by the verification. -/

/-- Reading a progress entry with the absent-means-fresh convention the
tracker applies on writes. -/
def getProgress (state : ProgressState) (note instrument : String) : NoteProgress :=
  (lookupProgress state note instrument).getD createNoteProgress

/-- A sequence of `recordAnswer` calls on one (note, instrument) pair. -/
def recordSeq (state : ProgressState) (note instrument : String)
    (answers : List Bool) : ProgressState :=
  answers.foldl (fun st b => recordAnswer st note instrument b) state

/-- The spec's promotion scenario input: from the initial state, ten correct
piano answers for each of the two active notes. -/
def sPiano : ProgressState :=
  recordSeq (recordSeq createInitialState "C4" "piano" (List.replicate 10 true))
    "G4" "piano" (List.replicate 10 true)

/-- The piano scenario continued through the whole instrument chain: ten
correct answers for each active note on xylophone and then on
guitar-acoustic as each becomes eligible. -/
def sFull : ProgressState :=
  let s2 := recordSeq (recordSeq sPiano "C4" "xylophone" (List.replicate 10 true))
    "G4" "xylophone" (List.replicate 10 true)
  recordSeq (recordSeq s2 "C4" "guitar-acoustic" (List.replicate 10 true))
    "G4" "guitar-acoustic" (List.replicate 10 true)

/-- A three-note state with no recorded results, base of the demotion
boundary scenarios. -/
def demoBase : ProgressState :=
  { noteProgress := []
    activeNotes := ["C4", "G4", "E4"]
    activeInstruments := ["piano"]
    currentStage := 2
    sessionsPlayed := 0
    introducedCombos := [] }

/-- Demotion boundary scenario: one note at rolling accuracy exactly 0.5. -/
def sHalf : ProgressState :=
  recordSeq demoBase "C4" "piano"
    [true, false, true, false, true, false, true, false, true, false]

/-- Demotion boundary scenario: one note (not the last active one) at
rolling accuracy 0.4. -/
def sForty : ProgressState :=
  recordSeq demoBase "C4" "piano"
    [true, false, true, false, false, false, true, false, true, false]

/-- Quiz-completion scenario harness: start a three-round quiz on the two
initial notes and answer three times, collecting the three statuses, the
final results length and the three completion flags. -/
def quizScenario (r0 r1 r2 r3 : ℚ) (a1 a2 a3 : String) :
    Option (String × String × String × Nat × Bool × Bool × Bool) :=
  match startQuizPhase createInitialGameState ["C4", "G4"] 3 r0 with
  | .error _ => none
  | .ok s1 =>
    match answerQuiz s1 a1 r1 with
    | .error _ => none
    | .ok o1 =>
      match answerQuiz o1.state a2 r2 with
      | .error _ => none
      | .ok o2 =>
        match answerQuiz o2.state a3 r3 with
        | .error _ => none
        | .ok o3 =>
            some (o1.status, o2.status, o3.status,
              (o3.state.quiz.map fun q => q.results.length).getD 0,
              (o1.state.quiz.map QuizState.isComplete).getD true,
              (o2.state.quiz.map QuizState.isComplete).getD true,
              (o3.state.quiz.map QuizState.isComplete).getD false)

/-! Helper lemmas. -/

theorem alookup_aset {α : Type} (l : AList α) (k : String) (v : α) (key : String) :
    alookup (aset l k v) key = if k = key then some v else alookup l key := by
  induction l with
  | nil =>
      by_cases h : k = key <;> simp [aset, alookup, h]
  | cons hd tl ih =>
      obtain ⟨k', w⟩ := hd
      by_cases h1 : k' = k
      · subst h1
        by_cases h2 : k' = key <;> simp [aset, alookup, h2]
      · by_cases h2 : k' = key
        · subst h2
          have hk : ¬ k = k' := fun hh => h1 hh.symm
          simp [aset, alookup, h1, hk]
        · simp [aset, alookup, h1, h2, ih]

theorem getProgress_recordAnswer (state : ProgressState) (note instrument : String)
    (wasCorrect : Bool) :
    getProgress (recordAnswer state note instrument wasCorrect) note instrument =
      stepProgress (getProgress state note instrument) wasCorrect := by
  simp [getProgress, recordAnswer, lookupProgress, alookup_aset]

/-- The rolling-window test of `isNoteMastered` over naturals: non-empty
window, at least 80 percent of the window correct, streak at least 3. -/
theorem isNoteMastered_eq_natTest (p : NoteProgress) :
    isNoteMastered p =
      (decide (0 < p.recentResults.length) &&
        (decide (4 * p.recentResults.length ≤ 5 * p.recentResults.count true) &&
          decide (3 ≤ p.streak))) := by
  unfold isNoteMastered getRollingAccuracy MASTERY_THRESHOLDS
  rcases h : p.recentResults.length with _ | n
  · simp only [h, if_true, eq_self_iff_true]
    rw [decide_eq_false (by norm_num : ¬ ((4:ℚ)/5 ≤ (0:ℚ)))]
    simp
  · have hlen : (0:ℚ) < (((n:ℕ)+1 : ℕ) : ℚ) := by positivity
    have key : ((4:ℚ)/5 ≤ (p.recentResults.count true : ℚ) / (((n:ℕ)+1 : ℕ) : ℚ)) ↔
        (4 * (n+1) ≤ 5 * p.recentResults.count true) := by
      rw [div_le_div_iff₀ (by norm_num) hlen]
      rw [show ((4:ℚ) * (((n:ℕ)+1:ℕ):ℚ)) = ((4 * (n+1) : ℕ) : ℚ) from by push_cast; ring]
      rw [show ((p.recentResults.count true : ℚ) * 5) = ((5 * p.recentResults.count true : ℕ) : ℚ) from by
        push_cast; ring]
      exact Nat.cast_le
    simp only [h]
    rw [if_neg (by omega)]
    simp only [key]
    simp

/-- The demotion test of `belowDemotion` over naturals: non-empty window
with strictly less than half of it correct. -/
theorem belowDemotion_eq_natTest (state : ProgressState) (note instrument : String) :
    belowDemotion state note instrument =
      (match lookupProgress state note instrument with
        | some p =>
            decide (0 < p.recentResults.length) &&
              decide (2 * p.recentResults.count true < p.recentResults.length)
        | none => false) := by
  unfold belowDemotion
  rcases lookupProgress state note instrument with _ | p
  · rfl
  · show (decide _ && decide _) = (decide _ && decide _)
    rcases h : p.recentResults.length with _ | n
    · simp [h]
    · have hlen : (0:ℚ) < (((n:ℕ)+1 : ℕ) : ℚ) := by positivity
      have key : ((p.recentResults.count true : ℚ) / (((n:ℕ)+1 : ℕ) : ℚ) <
          MASTERY_THRESHOLDS.demotionAccuracy) ↔
          (2 * p.recentResults.count true < n + 1) := by
        show ((p.recentResults.count true : ℚ) / (((n:ℕ)+1 : ℕ) : ℚ) < 1/2) ↔ _
        rw [div_lt_div_iff₀ hlen (by norm_num)]
        rw [show ((p.recentResults.count true : ℚ) * 2) = ((2 * p.recentResults.count true : ℕ) : ℚ) from by
          push_cast; ring]
        rw [show ((1:ℚ) * (((n:ℕ)+1:ℕ):ℚ)) = (((n+1 : ℕ)) : ℚ) from by push_cast; ring]
        exact Nat.cast_lt
      unfold getRollingAccuracy
      simp only [h]
      rw [if_neg (by omega)]
      simp only [key]

theorem getProgress_recordSeq (state : ProgressState) (note instrument : String)
    (answers : List Bool) :
    getProgress (recordSeq state note instrument answers) note instrument =
      answers.foldl stepProgress (getProgress state note instrument) := by
  induction answers generalizing state with
  | nil => rfl
  | cons b rest ih =>
      show getProgress (recordSeq (recordAnswer state note instrument b) note instrument rest)
          note instrument = _
      rw [ih, getProgress_recordAnswer]
      rfl

theorem stepProgress_window (p : NoteProgress) (b : Bool)
    (h : p.recentResults.length ≤ 10) :
    (stepProgress p b).recentResults =
        (p.recentResults ++ [b]).drop ((p.recentResults ++ [b]).length - 10) ∧
      (stepProgress p b).recentResults.length ≤ 10 := by
  have hlen : (p.recentResults ++ [b]).length = p.recentResults.length + 1 := by simp
  simp only [stepProgress]
  rw [show MASTERY_THRESHOLDS.rollingWindow = 10 from rfl]
  rcases Nat.lt_or_ge p.recentResults.length 10 with hlt | hge
  · rw [if_neg (by rw [hlen]; omega)]
    constructor
    · rw [Nat.sub_eq_zero_of_le (by rw [hlen]; omega), List.drop_zero]
    · rw [hlen]; omega
  · have h10 : p.recentResults.length = 10 := le_antisymm h hge
    rw [if_pos (by rw [hlen]; omega)]
    constructor
    · rw [show (p.recentResults ++ [b]).length - 10 = 1 from by rw [hlen, h10]]
      exact (List.drop_one _).symm
    · rw [List.length_tail, hlen, h10]

theorem foldl_stepProgress_window (answers : List Bool) (p : NoteProgress)
    (h : p.recentResults.length ≤ 10) :
    (answers.foldl stepProgress p).recentResults =
      (p.recentResults ++ answers).drop ((p.recentResults ++ answers).length - 10) := by
  induction answers generalizing p with
  | nil =>
      simp only [List.foldl_nil, List.append_nil]
      rw [Nat.sub_eq_zero_of_le h, List.drop_zero]
  | cons b rest ih =>
      obtain ⟨hw, hlenle⟩ := stepProgress_window p b h
      rw [List.foldl_cons, ih (stepProgress p b) hlenle, hw]
      rw [← List.drop_append_of_le_length (Nat.sub_le _ _), List.drop_drop]
      rw [show (p.recentResults ++ [b]) ++ rest = p.recentResults ++ b :: rest from by
        rw [List.append_assoc]; rfl]
      congr 1
      simp only [List.length_drop, List.length_append, List.length_cons, List.length_nil]
      omega

theorem drawWeighted_mem (l : List (String × ℚ)) (r : ℚ) (note : String)
    (h : drawWeighted l r = some note) : note ∈ l.map Prod.fst := by
  induction l generalizing r with
  | nil => simp [drawWeighted] at h
  | cons hd tl ih =>
      obtain ⟨n, w⟩ := hd
      unfold drawWeighted at h
      by_cases hc : r - w ≤ 0
      · rw [if_pos hc] at h
        simp at h
        simp [h]
      · rw [if_neg hc] at h
        simp only [List.map_cons, List.mem_cons]
        exact Or.inr (ih _ h)

theorem alookup_fillInstruments_some (instruments : List String)
    (existing : AList NoteProgress) (k : String) (p : NoteProgress)
    (h : alookup existing k = some p) :
    alookup (fillInstruments existing instruments) k = some p := by
  induction instruments generalizing existing with
  | nil => exact h
  | cons inst rest ih =>
      show alookup (fillInstruments
        (if (alookup existing inst).isNone then aset existing inst createNoteProgress
          else existing) rest) k = some p
      by_cases hm : (alookup existing inst).isNone
      · rw [if_pos hm]
        apply ih
        rw [alookup_aset]
        by_cases he : inst = k
        · subst he
          rw [h] at hm
          simp at hm
        · rw [if_neg he]
          exact h
      · rw [if_neg hm]
        exact ih existing h

theorem alookup_fillInstruments_none (instruments : List String)
    (existing : AList NoteProgress) (k : String)
    (h : alookup existing k = none) (hmem : k ∈ instruments) :
    alookup (fillInstruments existing instruments) k = some createNoteProgress := by
  induction instruments generalizing existing with
  | nil => simp at hmem
  | cons inst rest ih =>
      show alookup (fillInstruments
        (if (alookup existing inst).isNone then aset existing inst createNoteProgress
          else existing) rest) k = some createNoteProgress
      by_cases he : inst = k
      · subst he
        rw [if_pos (by simp [h])]
        apply alookup_fillInstruments_some
        rw [alookup_aset, if_pos rfl]
      · rcases List.mem_cons.mp hmem with hk | hk
        · exact absurd hk.symm he
        · by_cases hm : (alookup existing inst).isNone
          · rw [if_pos hm]
            apply ih _ _ hk
            rw [alookup_aset, if_neg he]
            exact h
          · rw [if_neg hm]
            exact ih existing h hk

theorem find?_first_not_active {α : Type} (p : α → Bool) (pre suf : List α) (x : α)
    (hpre : ∀ m ∈ pre, p m = false) (hx : p x = true) :
    (pre ++ x :: suf).find? p = some x := by
  induction pre with
  | nil => simp [List.find?_cons, hx]
  | cons hd tl ih =>
      have hhd : p hd = false := hpre hd (List.mem_cons_self hd tl)
      simp only [List.cons_append, List.find?_cons, hhd]
      exact ih fun m hm => hpre m (List.mem_cons_of_mem hd hm)

/-! Claim theorems. -/

/-- C3: for every `NoteProgress`, `isNoteMastered` returns true if and only
if rolling accuracy (0 on an empty window) is at least 0.8 and the streak
is at least 3; neither condition alone suffices; a window of 8 correct out
of 10 ending with streak 3 is mastered, while a window below 0.8 accuracy
with streak 7 is not, and a 90-percent window with a just-broken streak is
not either. -/
theorem mastery_requires_accuracy_and_streak :
    (∀ p : NoteProgress,
        isNoteMastered p = true ↔
          (MASTERY_THRESHOLDS.promotionAccuracy ≤ getRollingAccuracy p ∧
            MASTERY_THRESHOLDS.promotionStreak ≤ p.streak)) ∧
    isNoteMastered { attempts := 10, correct := 8, streak := 3,
                     recentResults := [true, true, true, true, true, false, false, true, true, true] } = true ∧
    isNoteMastered { attempts := 10, correct := 7, streak := 7,
                     recentResults := [false, false, false, true, true, true, true, true, true, true] } = false ∧
    isNoteMastered { attempts := 10, correct := 9, streak := 0,
                     recentResults := [true, true, true, true, true, true, true, true, true, false] } = false := by
  refine ⟨fun p => ?_, ?_, ?_, ?_⟩
  · simp [isNoteMastered]
  · rw [isNoteMastered_eq_natTest]
    decide
  · rw [isNoteMastered_eq_natTest]
    decide
  · rw [isNoteMastered_eq_natTest]
    decide

/-- Witness for C3: the mastery predicate applied through its
characterization at a fully correct ten-answer window with streak 10. -/
theorem mastery_requires_accuracy_and_streak_witness :
    isNoteMastered { attempts := 10, correct := 10, streak := 10,
                     recentResults := [true, true, true, true, true, true, true, true, true, true] } = true :=
  (mastery_requires_accuracy_and_streak.1 _).mpr
    ⟨by norm_num [getRollingAccuracy, MASTERY_THRESHOLDS, List.count_cons], by norm_num [MASTERY_THRESHOLDS]⟩

/-- C2: `isComboIntroduced` tests membership of the (note, instrument) pair
in the `introducedCombos` set; `markComboIntroduced` returns a state with
the pair added, leaving every other field (and hence all `NoteProgress`
data and mastery arithmetic) unchanged. -/
theorem combo_introduction_tracking :
    (∀ (s : ProgressState) (note instrument : String),
        isComboIntroduced s note instrument = true ↔
          (note, instrument) ∈ s.introducedCombos) ∧
    (∀ (s : ProgressState) (note instrument : String),
        (note, instrument) ∈ (markComboIntroduced s note instrument).introducedCombos) ∧
    (∀ (s : ProgressState) (note instrument note' instrument' : String),
        isComboIntroduced (markComboIntroduced s note instrument) note' instrument' =
          (isComboIntroduced s note' instrument' ||
            (decide (note' = note) && decide (instrument' = instrument)))) ∧
    (∀ (s : ProgressState) (note instrument : String),
        (markComboIntroduced s note instrument).noteProgress = s.noteProgress ∧
        (markComboIntroduced s note instrument).activeNotes = s.activeNotes ∧
        (markComboIntroduced s note instrument).activeInstruments = s.activeInstruments ∧
        (markComboIntroduced s note instrument).currentStage = s.currentStage ∧
        (markComboIntroduced s note instrument).sessionsPlayed = s.sessionsPlayed) := by
  refine ⟨fun s note instrument => ?_, fun s note instrument => ?_,
    fun s note instrument note' instrument' => ?_, fun s note instrument => ?_⟩
  · simp [isComboIntroduced]
  · by_cases h : (note, instrument) ∈ s.introducedCombos <;>
      simp [markComboIntroduced, h]
  · by_cases h : (note, instrument) ∈ s.introducedCombos
    · simp only [markComboIntroduced, if_pos h, isComboIntroduced]
      by_cases h1 : note' = note
      · by_cases h2 : instrument' = instrument
        · subst h1; subst h2
          simp [h]
        · simp [h2]
      · simp [h1]
    · simp only [markComboIntroduced, if_neg h, isComboIntroduced]
      simp [List.mem_append, Prod.ext_iff]
  · exact ⟨rfl, rfl, rfl, rfl, rfl⟩

/-- Witness for C2: marking (C4, piano) in the fresh state makes
`isComboIntroduced` report it, through the membership characterization. -/
theorem combo_introduction_tracking_witness :
    isComboIntroduced (markComboIntroduced createInitialState "C4" "piano") "C4" "piano" = true :=
  (combo_introduction_tracking.1 (markComboIntroduced createInitialState "C4" "piano")
      "C4" "piano").mpr
    (combo_introduction_tracking.2.1 createInitialState "C4" "piano")

/-- C7: `recordAnswer` sets the streak to 0 after an incorrect answer and
to the previous streak plus one after a correct answer, independently of
the window; and any sequence of at least 11 recorded answers on one
(note, instrument) pair leaves `recentResults` at length exactly 10,
equal to the last 10 results in call order. -/
theorem record_answer_streak_and_window :
    (∀ (s : ProgressState) (note instrument : String) (wasCorrect : Bool),
        (getProgress (recordAnswer s note instrument wasCorrect) note instrument).streak =
          if wasCorrect then (getProgress s note instrument).streak + 1 else 0) ∧
    (∀ (s : ProgressState) (note instrument : String) (answers : List Bool),
        (getProgress s note instrument).recentResults.length ≤
            MASTERY_THRESHOLDS.rollingWindow →
        11 ≤ answers.length →
          (getProgress (recordSeq s note instrument answers) note instrument).recentResults =
              answers.drop (answers.length - 10) ∧
            (getProgress (recordSeq s note instrument answers) note
                instrument).recentResults.length = 10) := by
  constructor
  · intro s note instrument wasCorrect
    rw [getProgress_recordAnswer]
    simp [stepProgress]
  · intro s note instrument answers hwin hlen
    rw [getProgress_recordSeq,
      foldl_stepProgress_window answers (getProgress s note instrument) hwin]
    constructor
    · have h1 : ((getProgress s note instrument).recentResults ++ answers).length - 10 =
          (getProgress s note instrument).recentResults.length + (answers.length - 10) := by
        simp only [List.length_append]
        omega
      rw [h1, List.drop_append]
    · simp only [List.length_drop, List.length_append]
      omega

/-- Witness for C7: the window property applied at the initial state with
eleven alternating answers on (C4, piano). -/
theorem record_answer_streak_and_window_witness :
    (getProgress (recordSeq createInitialState "C4" "piano"
        [true, false, true, false, true, false, true, false, true, false, true])
      "C4" "piano").recentResults =
      [false, true, false, true, false, true, false, true, false, true] := by
  have h := (record_answer_streak_and_window.2 createInitialState "C4" "piano"
    [true, false, true, false, true, false, true, false, true, false, true]
    (by decide) (by decide)).1
  rw [h]
  decide

/-- C9: `applyDemotion` is a no-op at two or fewer active notes or when
the target note is not active; otherwise it removes the note from
`activeNotes`, decrements `currentStage` floored at 1, and leaves
`noteProgress` (and the other fields) untouched; a later `applyPromotion`
of the same note reuses the preserved entries and creates zeroed entries
only for active instruments it lacks. -/
theorem demotion_preserves_history :
    (∀ (s : ProgressState) (note : String),
        s.activeNotes.length ≤ 2 → applyDemotion s note = s) ∧
    (∀ (s : ProgressState) (note : String),
        note ∉ s.activeNotes → applyDemotion s note = s) ∧
    (∀ (s : ProgressState) (note : String),
        2 < s.activeNotes.length → note ∈ s.activeNotes →
          (applyDemotion s note).activeNotes =
              s.activeNotes.filter (fun n => n != note) ∧
            note ∉ (applyDemotion s note).activeNotes ∧
            (applyDemotion s note).currentStage = max 1 (s.currentStage - 1) ∧
            (applyDemotion s note).noteProgress = s.noteProgress ∧
            (applyDemotion s note).activeInstruments = s.activeInstruments ∧
            (applyDemotion s note).sessionsPlayed = s.sessionsPlayed) ∧
    (∀ (s : ProgressState) (nextNote : String),
        checkPromotion s = { shouldPromote := true, nextNote := some nextNote } →
          (∀ (instrument : String) (p : NoteProgress),
              lookupProgress s nextNote instrument = some p →
              lookupProgress (applyPromotion s) nextNote instrument = some p) ∧
          (∀ instrument : String, instrument ∈ s.activeInstruments →
              lookupProgress s nextNote instrument = none →
              lookupProgress (applyPromotion s) nextNote instrument =
                some createNoteProgress)) := by
  refine ⟨fun s note h => ?_, fun s note h => ?_, fun s note h hmem => ?_,
    fun s nextNote hcp => ?_⟩
  · rw [applyDemotion, if_pos h]
  · rw [applyDemotion]
    by_cases h2 : s.activeNotes.length ≤ 2
    · rw [if_pos h2]
    · rw [if_neg h2, if_pos]
      simp [h]
  · rw [applyDemotion, if_neg (by omega), if_neg (by simp [hmem])]
    refine ⟨rfl, ?_, rfl, rfl, rfl, rfl⟩
    simp
  · have happ : applyPromotion s =
        { s with
          activeNotes := s.activeNotes ++ [nextNote]
          noteProgress := aset s.noteProgress nextNote
            (fillInstruments ((alookup s.noteProgress nextNote).getD [])
              s.activeInstruments)
          currentStage := s.currentStage + 1 } := by
      rw [applyPromotion, hcp]
    constructor
    · intro instrument p hp
      rw [happ]
      show alookup ((alookup (aset s.noteProgress nextNote _) nextNote).getD []) instrument =
        some p
      rw [alookup_aset, if_pos rfl]
      exact alookup_fillInstruments_some _ _ _ _ hp
    · intro instrument hmem hnone
      rw [happ]
      show alookup ((alookup (aset s.noteProgress nextNote _) nextNote).getD []) instrument =
        some createNoteProgress
      rw [alookup_aset, if_pos rfl]
      exact alookup_fillInstruments_none _ _ _ hnone hmem

/-- Witness for C9: demoting C4 from the two-note initial state is a
no-op. -/
theorem demotion_preserves_history_witness :
    applyDemotion createInitialState "C4" = createInitialState :=
  demotion_preserves_history.1 createInitialState "C4" (by decide)

/-- C5: `checkDemotion` never fires at two or fewer active notes; above
that it fires exactly when some active note on some active instrument with
at least one recorded result has rolling accuracy strictly below 0.5, and
then removes the last element of `activeNotes`; accuracy exactly 0.5 does
not trigger, accuracy 0.4 does (even when a different note triggered it). -/
theorem demotion_check_characterization :
    (∀ s : ProgressState, s.activeNotes.length ≤ 2 →
        checkDemotion s = { shouldDemote := false, noteToRemove := none }) ∧
    (∀ s : ProgressState, 2 < s.activeNotes.length →
        ((checkDemotion s).shouldDemote = true ↔
          ∃ note ∈ s.activeNotes, ∃ instrument ∈ s.activeInstruments,
            ∃ p, lookupProgress s note instrument = some p ∧
              0 < p.recentResults.length ∧
              getRollingAccuracy p < MASTERY_THRESHOLDS.demotionAccuracy) ∧
        ((checkDemotion s).shouldDemote = true →
          (checkDemotion s).noteToRemove = s.activeNotes.getLast?)) ∧
    checkDemotion sHalf = { shouldDemote := false, noteToRemove := none } ∧
    checkDemotion sForty = { shouldDemote := true, noteToRemove := some "E4" } := by
  refine ⟨fun s h => ?_, fun s h => ?_, ?_, ?_⟩
  · rw [checkDemotion, if_pos h]
  · have hbelow : ∀ note instrument,
        belowDemotion s note instrument = true ↔
          ∃ p, lookupProgress s note instrument = some p ∧
            0 < p.recentResults.length ∧
            getRollingAccuracy p < MASTERY_THRESHOLDS.demotionAccuracy := by
      intro note instrument
      rcases hp : lookupProgress s note instrument with _ | p
      · simp [belowDemotion, hp]
      · simp [belowDemotion, hp]
    rw [checkDemotion, if_neg (by omega)]
    by_cases hany : (s.activeNotes.any fun note =>
        s.activeInstruments.any fun instrument => belowDemotion s note instrument) = true
    · rw [if_pos hany]
      constructor
      · simp only [true_iff]
        simp only [List.any_eq_true] at hany
        obtain ⟨note, hnote, instrument, hinstrument, hb⟩ := hany
        exact ⟨note, hnote, instrument, hinstrument, (hbelow note instrument).mp hb⟩
      · intro
        rfl
    · rw [if_neg hany]
      constructor
      · simp only [Bool.false_eq_true, false_iff]
        rintro ⟨note, hnote, instrument, hinstrument, hex⟩
        exact hany (List.any_eq_true.mpr
          ⟨note, hnote, List.any_eq_true.mpr
            ⟨instrument, hinstrument, (hbelow note instrument).mpr hex⟩⟩)
      · intro hcontra
        simp at hcontra
  · simp [sHalf, recordSeq, recordAnswer, stepProgress, demoBase, alookup, aset,
      checkDemotion, belowDemotion_eq_natTest, lookupProgress, createNoteProgress,
      MASTERY_THRESHOLDS]
  · simp [sForty, recordSeq, recordAnswer, stepProgress, demoBase, alookup, aset,
      checkDemotion, belowDemotion_eq_natTest, lookupProgress, createNoteProgress,
      MASTERY_THRESHOLDS]

/-- Witness for C5: the two-note initial state can never trigger
demotion. -/
theorem demotion_check_characterization_witness :
    checkDemotion createInitialState = { shouldDemote := false, noteToRemove := none } :=
  demotion_check_characterization.1 createInitialState (by decide)

/-- C6: for every state and note, `getEligibleInstruments` yields a
non-empty prefix of the fixed instrument order starting with the first
instrument; each later instrument appears only if the note is mastered on
the previous one, the scan stops at the first non-mastered instrument, and
a note with no recorded progress is eligible only on the first
instrument. -/
theorem eligible_instruments_ordered_chain :
    ∀ (s : ProgressState) (note : String),
      (getEligibleInstruments s note).head? = INSTRUMENTS.head? ∧
      (∃ k, 1 ≤ k ∧ k ≤ INSTRUMENTS.length ∧
        getEligibleInstruments s note = INSTRUMENTS.take k) ∧
      (∀ j, j + 1 < (getEligibleInstruments s note).length →
        comboMastered s note (INSTRUMENTS.getD j "") = true) ∧
      ((getEligibleInstruments s note).length < INSTRUMENTS.length →
        comboMastered s note
          (INSTRUMENTS.getD ((getEligibleInstruments s note).length - 1) "") = false) ∧
      (alookup s.noteProgress note = none → getEligibleInstruments s note = ["piano"]) := by
  intro s note
  have hcm : ∀ instrument, comboMastered s note instrument =
      (match alookup ((alookup s.noteProgress note).getD []) instrument with
        | some p => isNoteMastered p
        | none => false) := fun _ => rfl
  rcases hp : alookup ((alookup s.noteProgress note).getD []) "piano" with _ | p1
  · have he : getEligibleInstruments s note = ["piano"] := by
      simp [getEligibleInstruments, INSTRUMENTS, eligChain, hp]
    refine ⟨by simp [he, INSTRUMENTS], ⟨1, by omega, by simp [INSTRUMENTS], by
      simp [he, INSTRUMENTS]⟩, ?_, ?_, fun _ => he⟩
    · intro j hj
      rw [he] at hj
      simp at hj
    · intro
      rw [he]
      simp only [List.length_cons, List.length_nil]
      rw [hcm]
      simp [INSTRUMENTS, hp]
  · rcases hm1 : isNoteMastered p1 with _ | _
    · have he : getEligibleInstruments s note = ["piano"] := by
        simp [getEligibleInstruments, INSTRUMENTS, eligChain, hp, hm1]
      refine ⟨by simp [he, INSTRUMENTS], ⟨1, by omega, by simp [INSTRUMENTS], by
        simp [he, INSTRUMENTS]⟩, ?_, ?_, fun _ => he⟩
      · intro j hj
        rw [he] at hj
        simp at hj
      · intro
        rw [he]
        simp only [List.length_cons, List.length_nil]
        rw [hcm]
        simp [INSTRUMENTS, hp, hm1]
    · rcases hx : alookup ((alookup s.noteProgress note).getD []) "xylophone" with _ | p2
      · have he : getEligibleInstruments s note = ["piano", "xylophone"] := by
          simp [getEligibleInstruments, INSTRUMENTS, eligChain, hp, hm1, hx]
        refine ⟨by simp [he, INSTRUMENTS], ⟨2, by omega, by simp [INSTRUMENTS], by
          simp [he, INSTRUMENTS]⟩, ?_, ?_, fun hnone => by rw [hnone] at hp; simp [alookup] at hp⟩
        · intro j hj
          rw [he] at hj
          simp only [List.length_cons, List.length_nil] at hj
          have hj0 : j = 0 := by omega
          subst hj0
          rw [hcm]
          simp [INSTRUMENTS, hp, hm1]
        · intro
          rw [he]
          simp only [List.length_cons, List.length_nil]
          rw [hcm]
          simp [INSTRUMENTS, hx]
      · rcases hm2 : isNoteMastered p2 with _ | _
        · have he : getEligibleInstruments s note = ["piano", "xylophone"] := by
            simp [getEligibleInstruments, INSTRUMENTS, eligChain, hp, hm1, hx, hm2]
          refine ⟨by simp [he, INSTRUMENTS], ⟨2, by omega, by simp [INSTRUMENTS], by
            simp [he, INSTRUMENTS]⟩, ?_, ?_, fun hnone => by rw [hnone] at hp; simp [alookup] at hp⟩
          · intro j hj
            rw [he] at hj
            simp only [List.length_cons, List.length_nil] at hj
            have hj0 : j = 0 := by omega
            subst hj0
            rw [hcm]
            simp [INSTRUMENTS, hp, hm1]
          · intro
            rw [he]
            simp only [List.length_cons, List.length_nil]
            rw [hcm]
            simp [INSTRUMENTS, hx, hm2]
        · have he : getEligibleInstruments s note =
              ["piano", "xylophone", "guitar-acoustic"] := by
            simp [getEligibleInstruments, INSTRUMENTS, eligChain, hp, hm1, hx, hm2]
          refine ⟨by simp [he, INSTRUMENTS], ⟨3, by omega, by simp [INSTRUMENTS], by
            simp [he, INSTRUMENTS]⟩, ?_, ?_, fun hnone => by rw [hnone] at hp; simp [alookup] at hp⟩
          · intro j hj
            rw [he] at hj
            simp only [List.length_cons, List.length_nil] at hj
            have hj01 : j = 0 ∨ j = 1 := by omega
            rcases hj01 with hj0 | hj1
            · subst hj0
              rw [hcm]
              simp [INSTRUMENTS, hp, hm1]
            · subst hj1
              rw [hcm]
              simp [INSTRUMENTS, hx, hm2]
          · intro hlt
            rw [he] at hlt
            simp [INSTRUMENTS] at hlt

/-- Witness for C6: a note that has no progress entry in the initial state
is eligible only on piano. -/
theorem eligible_instruments_ordered_chain_witness :
    getEligibleInstruments createInitialState "E4" = ["piano"] :=
  (eligible_instruments_ordered_chain createInitialState "E4").2.2.2.2 (by decide)

/-- C4: `getWeightedNoteSelection` errors exactly on an empty active set
(every other input yields a note), returns the unique note of a singleton
set unconditionally, weights untested notes at 1.0 and tested notes at
`max(0.1, 1 - accuracy)`, and for every state with non-empty `activeNotes`
and every value of the random source the selected note is a member of
`activeNotes`. -/
theorem weighted_selection_stays_in_active_set :
    (∀ (s : ProgressState) (instrument : String) (rand : ℚ),
        s.activeNotes = [] →
        getWeightedNoteSelection s instrument rand =
          .error "No active notes to select from") ∧
    (∀ (s : ProgressState) (instrument : String) (rand : ℚ) (note : String),
        s.activeNotes = [note] →
        getWeightedNoteSelection s instrument rand = .ok note) ∧
    (∀ (s : ProgressState) (instrument note : String),
        lookupProgress s note instrument = none → noteWeight s instrument note = 1) ∧
    (∀ (s : ProgressState) (instrument note : String) (p : NoteProgress),
        lookupProgress s note instrument = some p →
        noteWeight s instrument note =
          if p.attempts = 0 then 1 else max (1 / 10) (1 - getRollingAccuracy p)) ∧
    (∀ (s : ProgressState) (instrument : String) (rand : ℚ),
        s.activeNotes ≠ [] →
        ∃ note, getWeightedNoteSelection s instrument rand = Except.ok note ∧
          note ∈ s.activeNotes) := by
  refine ⟨fun s instrument rand h => ?_, fun s instrument rand note h => ?_,
    fun s instrument note h => ?_, fun s instrument note p h => ?_,
    fun s instrument rand h => ?_⟩
  · rw [getWeightedNoteSelection, if_pos (by simp [h])]
  · rw [getWeightedNoteSelection, if_neg (by simp [h]), if_pos (by simp [h])]
    simp [h]
  · simp [noteWeight, h]
  · simp [noteWeight, h]
  · rw [getWeightedNoteSelection, if_neg (by simp [h])]
    by_cases h1 : s.activeNotes.length = 1
    · rw [if_pos h1]
      rcases hl : s.activeNotes with _ | ⟨a, t⟩
      · exact absurd hl h
      · exact ⟨a, by simp [hl], by simp [hl]⟩
    · rw [if_neg h1]
      rcases hdw : drawWeighted
          (s.activeNotes.zip (s.activeNotes.map (noteWeight s instrument)))
          (rand * ((s.activeNotes.map (noteWeight s instrument)).foldl (· + ·) 0))
        with _ | note
      · refine ⟨(s.activeNotes.getLast?).getD "", by simp [hdw], ?_⟩
        rcases hl : s.activeNotes with _ | ⟨a, t⟩
        · exact absurd hl h
        · rw [List.getLast?_eq_getLast (a :: t) (by simp), Option.getD_some]
          exact List.getLast_mem _
      · refine ⟨note, by simp [hdw], ?_⟩
        have hmem := drawWeighted_mem _ _ _ hdw
        rwa [List.map_fst_zip _ _ (by simp)] at hmem

/-- Witness for C4: weighted selection from the initial two-note state
yields a member of the active set. -/
theorem weighted_selection_stays_in_active_set_witness :
    ∃ note, getWeightedNoteSelection createInitialState "piano" (1 / 2) = Except.ok note ∧
      note ∈ createInitialState.activeNotes :=
  weighted_selection_stays_in_active_set.2.2.2.2 createInitialState "piano" (1 / 2) (by decide)

/-- C1 (amended): `checkPromotion` returns `shouldPromote = false` with
`nextNote = null` when `activeNotes` is at `maxActiveNotes` or every
introduction-order note is active; otherwise `shouldPromote = true` iff
every active note is mastered on every currently-eligible instrument, in
which case `nextNote` is the first introduction-order note not in
`activeNotes` (and `nextNote = null` when `shouldPromote = false`); from
the initial state, ten correct piano answers per note make the second
instrument eligible but unmastered, so `checkPromotion` returns
`{false, null}` and `applyPromotion` is a no-op; continuing with ten
correct answers per note on xylophone and guitar-acoustic yields
`{true, "E4"}`, and `applyPromotion` then grows `activeNotes` to length 3
and `currentStage` to 2. -/
theorem promotion_check_and_apply :
    (∀ s : ProgressState, MASTERY_THRESHOLDS.maxActiveNotes ≤ s.activeNotes.length →
        checkPromotion s = { shouldPromote := false, nextNote := none }) ∧
    (∀ s : ProgressState, (∀ note ∈ NOTE_INTRODUCTION_ORDER, note ∈ s.activeNotes) →
        checkPromotion s = { shouldPromote := false, nextNote := none }) ∧
    (∀ (s : ProgressState) (pre suf : List String) (nextNote : String),
        s.activeNotes.length < MASTERY_THRESHOLDS.maxActiveNotes →
        NOTE_INTRODUCTION_ORDER = pre ++ nextNote :: suf →
        (∀ m ∈ pre, m ∈ s.activeNotes) →
        nextNote ∉ s.activeNotes →
          ((checkPromotion s).shouldPromote = true ↔
            ∀ note ∈ s.activeNotes, ∀ instrument ∈ getEligibleInstruments s note,
              comboMastered s note instrument = true) ∧
          ((checkPromotion s).shouldPromote = true →
            checkPromotion s = { shouldPromote := true, nextNote := some nextNote }) ∧
          ((checkPromotion s).shouldPromote = false →
            checkPromotion s = { shouldPromote := false, nextNote := none })) ∧
    (checkPromotion sPiano = { shouldPromote := false, nextNote := none } ∧
      applyPromotion sPiano = sPiano) ∧
    (checkPromotion sFull = { shouldPromote := true, nextNote := some "E4" } ∧
      (applyPromotion sFull).activeNotes.length = 3 ∧
      (applyPromotion sFull).currentStage = 2) := by
  refine ⟨fun s h => ?_, fun s hall => ?_, fun s pre suf nextNote hlen horder hpre hnn => ?_,
    ?_, ?_⟩
  · rw [checkPromotion, if_pos h]
  · by_cases hth : MASTERY_THRESHOLDS.maxActiveNotes ≤ s.activeNotes.length
    · rw [checkPromotion, if_pos hth]
    · have hfind : NOTE_INTRODUCTION_ORDER.find?
          (fun note => !(s.activeNotes.contains note)) = none := by
        rw [List.find?_eq_none]
        intro x hx
        simp [hall x hx]
      rw [checkPromotion, if_neg hth, hfind]
  · have hfind : NOTE_INTRODUCTION_ORDER.find?
        (fun note => !(s.activeNotes.contains note)) = some nextNote := by
      rw [horder]
      apply find?_first_not_active
      · intro m hm
        simp [hpre m hm]
      · simp [hnn]
    have hAM : allActiveMastered s = true ↔
        ∀ note ∈ s.activeNotes, ∀ instrument ∈ getEligibleInstruments s note,
          comboMastered s note instrument = true := by
      simp [allActiveMastered, List.all_eq_true]
    have hcheck : checkPromotion s =
        (if allActiveMastered s = true then
          ({ shouldPromote := true, nextNote := some nextNote } : PromotionCheck)
        else { shouldPromote := false, nextNote := none }) := by
      rw [checkPromotion, if_neg (by omega), hfind]
    rw [hcheck]
    by_cases ham : allActiveMastered s = true
    · rw [if_pos ham]
      exact ⟨by simpa using hAM.mp ham, fun _ => rfl, fun hcontra => by simp at hcontra⟩
    · rw [if_neg ham]
      refine ⟨?_, fun hcontra => by simp at hcontra, fun _ => rfl⟩
      simp only [Bool.false_eq_true, false_iff]
      intro hprop
      exact ham (hAM.mpr hprop)
  · have hcp : checkPromotion sPiano = { shouldPromote := false, nextNote := none } := by
      simp [sPiano, recordSeq, recordAnswer, stepProgress, createInitialState, alookup, aset,
        checkPromotion, allActiveMastered, getEligibleInstruments, eligChain, comboMastered,
        lookupProgress, isNoteMastered_eq_natTest, NOTE_INTRODUCTION_ORDER, INSTRUMENTS,
        MASTERY_THRESHOLDS, createNoteProgress]
    refine ⟨hcp, ?_⟩
    rw [applyPromotion, hcp]
  · have hcp : checkPromotion sFull = { shouldPromote := true, nextNote := some "E4" } := by
      simp [sFull, sPiano, recordSeq, recordAnswer, stepProgress, createInitialState, alookup,
        aset, checkPromotion, allActiveMastered, getEligibleInstruments, eligChain,
        comboMastered, lookupProgress, isNoteMastered_eq_natTest, NOTE_INTRODUCTION_ORDER,
        INSTRUMENTS, MASTERY_THRESHOLDS, createNoteProgress]
    have happ : applyPromotion sFull =
        { sFull with
          activeNotes := sFull.activeNotes ++ ["E4"]
          noteProgress := aset sFull.noteProgress "E4"
            (fillInstruments ((alookup sFull.noteProgress "E4").getD [])
              sFull.activeInstruments)
          currentStage := sFull.currentStage + 1 } := by
      rw [applyPromotion, hcp]
    refine ⟨hcp, ?_, ?_⟩
    · rw [happ]
      show (sFull.activeNotes ++ ["E4"]).length = 3
      simp [sFull, sPiano, recordSeq, recordAnswer, stepProgress, createInitialState,
        NOTE_INTRODUCTION_ORDER]
    · rw [happ]
      show sFull.currentStage + 1 = 2
      simp [sFull, sPiano, recordSeq, recordAnswer, stepProgress, createInitialState,
        NOTE_INTRODUCTION_ORDER]

/-- Witness for C1: a state already holding six active notes is refused
promotion. -/
theorem promotion_check_and_apply_witness :
    checkPromotion
        { noteProgress := []
          activeNotes := ["C4", "G4", "E4", "A4", "D4", "F4"]
          activeInstruments := ["piano"]
          currentStage := 5
          sessionsPlayed := 0
          introducedCombos := [] } =
      { shouldPromote := false, nextNote := none } :=
  promotion_check_and_apply.1 _ (by decide)

/-- Counterexample for C1 as stated: after ten correct piano answers for
each of the two initial notes, `checkPromotion` does not return
`shouldPromote = true` with `nextNote = "E4"` (xylophone has become
eligible but has no recorded progress); it returns `{false, null}` and
`applyPromotion` leaves `activeNotes` at length 2 and `currentStage` at 1,
contradicting the claimed promotion to length 3 and stage 2. -/
theorem promotion_scenario_counterexample :
    (checkPromotion sPiano).shouldPromote = false ∧
    (checkPromotion sPiano).nextNote = none ∧
    (applyPromotion sPiano).activeNotes.length = 2 ∧
    (applyPromotion sPiano).currentStage = 1 := by
  have hcp : checkPromotion sPiano = { shouldPromote := false, nextNote := none } := by
    simp [sPiano, recordSeq, recordAnswer, stepProgress, createInitialState, alookup, aset,
      checkPromotion, allActiveMastered, getEligibleInstruments, eligChain, comboMastered,
      lookupProgress, isNoteMastered_eq_natTest, NOTE_INTRODUCTION_ORDER, INSTRUMENTS,
      MASTERY_THRESHOLDS, createNoteProgress]
  have happ : applyPromotion sPiano = sPiano := by
    rw [applyPromotion, hcp]
  refine ⟨by rw [hcp], by rw [hcp], ?_, ?_⟩
  · rw [happ]
    simp [sPiano, recordSeq, recordAnswer, stepProgress, createInitialState,
      NOTE_INTRODUCTION_ORDER]
  · rw [happ]
    simp [sPiano, recordSeq, recordAnswer, stepProgress, createInitialState,
      NOTE_INTRODUCTION_ORDER]

/-- C8: in the quiz phase, `answerQuiz` compares the tapped note to
`currentQuestion`, appends a result record `{round, question, answer,
correct}`, marks the quiz complete without advancing the round or
replacing the question when the round has reached `totalRounds`, and
otherwise increments the round and selects a new question; it returns the
correctness flag, the correct note and a status; a quiz started with three
rounds is complete on the third answer and not before, with three
results. -/
theorem answer_quiz_characterization :
    (∀ (s : GameState) (q : QuizState) (tapped : String) (rand : ℚ),
        s.phase = some Phase.QUIZ → s.quiz = some q →
        ∃ out, answerQuiz s tapped rand = Except.ok out ∧
          out.correct = (tapped == q.currentQuestion) ∧
          out.correctNote = q.currentQuestion ∧
          ∃ q', out.state.quiz = some q' ∧
            q'.results = q.results ++
              [{ round := q.roundNumber, question := q.currentQuestion, answer := tapped,
                 correct := tapped == q.currentQuestion }] ∧
            (q.totalRounds ≤ q.roundNumber →
              q'.roundNumber = q.roundNumber ∧ q'.currentQuestion = q.currentQuestion ∧
                q'.isComplete = true ∧ out.status = "complete") ∧
            (q.roundNumber < q.totalRounds →
              q'.roundNumber = q.roundNumber + 1 ∧
                q'.currentQuestion = selectRandomNote q.activeNotes rand ∧
                q'.isComplete = false ∧ out.status = "continue")) ∧
    (∀ (r0 r1 r2 r3 : ℚ) (a1 a2 a3 : String),
        quizScenario r0 r1 r2 r3 a1 a2 a3 =
          some ("continue", "continue", "complete", 3, false, false, true)) := by
  constructor
  · intro s q tapped rand hphase hquiz
    have hans : answerQuiz s tapped rand = Except.ok
        { state :=
            { s with
                quiz := some
                  { q with
                      currentQuestion :=
                        if q.totalRounds ≤ q.roundNumber then q.currentQuestion
                        else selectRandomNote q.activeNotes rand
                      roundNumber :=
                        if q.totalRounds ≤ q.roundNumber then q.roundNumber
                        else q.roundNumber + 1
                      results := q.results ++
                        [{ round := q.roundNumber, question := q.currentQuestion,
                           answer := tapped, correct := tapped == q.currentQuestion }]
                      isComplete := decide (q.totalRounds ≤ q.roundNumber) } }
          correct := tapped == q.currentQuestion
          correctNote := q.currentQuestion
          status := if q.totalRounds ≤ q.roundNumber then "complete" else "continue" } := by
      rw [answerQuiz, if_neg (by simp [hphase]), hquiz]
    refine ⟨_, hans, rfl, rfl, _, rfl, rfl, ?_, ?_⟩
    · intro hlast
      refine ⟨by simp [hlast], by simp [hlast], by simp [hlast], by simp [hlast]⟩
    · intro hlt
      have hn : ¬ (q.totalRounds ≤ q.roundNumber) := by omega
      refine ⟨by simp [hn], by simp [hn], by simp [hn], by simp [hn]⟩
  · intro r0 r1 r2 r3 a1 a2 a3
    simp [quizScenario, startQuizPhase, answerQuiz, createInitialGameState]

/-- Witness for C8: one non-final `answerQuiz` call on a concrete
two-round quiz state, through the characterization. -/
theorem answer_quiz_characterization_witness :
    ∃ out,
      answerQuiz
          { phase := some Phase.QUIZ, listen := none, explore := none,
            quiz := some { activeNotes := ["C4", "G4"], currentQuestion := "C4",
                           roundNumber := 1, totalRounds := 2, results := [],
                           isComplete := false },
            result := none }
          "C4" 0 = Except.ok out ∧
        out.correct = ("C4" == "C4") ∧
        out.correctNote = "C4" ∧
        ∃ q', out.state.quiz = some q' ∧
          q'.results = [] ++
            [{ round := 1, question := "C4", answer := "C4", correct := "C4" == "C4" }] ∧
          (2 ≤ 1 →
            q'.roundNumber = 1 ∧ q'.currentQuestion = "C4" ∧
              q'.isComplete = true ∧ out.status = "complete") ∧
          (1 < 2 →
            q'.roundNumber = 1 + 1 ∧
              q'.currentQuestion = selectRandomNote ["C4", "G4"] 0 ∧
              q'.isComplete = false ∧ out.status = "continue") :=
  answer_quiz_characterization.1
    { phase := some Phase.QUIZ, listen := none, explore := none,
      quiz := some { activeNotes := ["C4", "G4"], currentQuestion := "C4",
                     roundNumber := 1, totalRounds := 2, results := [],
                     isComplete := false },
      result := none }
    { activeNotes := ["C4", "G4"], currentQuestion := "C4",
      roundNumber := 1, totalRounds := 2, results := [], isComplete := false }
    "C4" 0 rfl rfl

/-- C10: calling `answerQuiz` on a quiz that is already complete (round
equal to `totalRounds`, `isComplete = true`) does not signal an error: it
appends one more result record carrying the same round number, leaves
`roundNumber`, `currentQuestion` and `isComplete` unchanged, returns
status "complete", and grows the results list past `totalRounds`
entries. -/
theorem answer_quiz_after_complete :
    ∀ (s : GameState) (q : QuizState) (tapped : String) (rand : ℚ),
      s.phase = some Phase.QUIZ → s.quiz = some q →
      q.roundNumber = q.totalRounds → q.isComplete = true →
      ∃ out, answerQuiz s tapped rand = Except.ok out ∧
        out.status = "complete" ∧
        out.state.quiz = some
          { q with results := q.results ++
              [{ round := q.roundNumber, question := q.currentQuestion, answer := tapped,
                 correct := tapped == q.currentQuestion }] } ∧
        (out.state.quiz.map fun q' => q'.results.length) = some (q.results.length + 1) := by
  intro s q tapped rand hphase hquiz hround hcomplete
  have hlast : q.totalRounds ≤ q.roundNumber := by omega
  have hans : answerQuiz s tapped rand = Except.ok
      { state :=
          { s with
              quiz := some
                { q with
                    currentQuestion :=
                      if q.totalRounds ≤ q.roundNumber then q.currentQuestion
                      else selectRandomNote q.activeNotes rand
                    roundNumber :=
                      if q.totalRounds ≤ q.roundNumber then q.roundNumber
                      else q.roundNumber + 1
                    results := q.results ++
                      [{ round := q.roundNumber, question := q.currentQuestion,
                         answer := tapped, correct := tapped == q.currentQuestion }]
                    isComplete := decide (q.totalRounds ≤ q.roundNumber) } }
        correct := tapped == q.currentQuestion
        correctNote := q.currentQuestion
        status := if q.totalRounds ≤ q.roundNumber then "complete" else "continue" } := by
    rw [answerQuiz, if_neg (by simp [hphase]), hquiz]
  refine ⟨_, hans, by simp [hlast], ?_, ?_⟩
  · simp only [if_pos hlast]
    rw [show decide (q.totalRounds ≤ q.roundNumber) = true from by simp [hlast]]
    rw [hcomplete]
  · simp

/-- Witness for C10: a further answer on a completed three-round quiz with
three results appends a fourth record and keeps status "complete". -/
theorem answer_quiz_after_complete_witness :
    ∃ out,
      answerQuiz
          { phase := some Phase.QUIZ, listen := none, explore := none,
            quiz := some { activeNotes := ["C4", "G4"], currentQuestion := "G4",
                           roundNumber := 3, totalRounds := 3,
                           results := [{ round := 1, question := "C4", answer := "C4",
                                         correct := true },
                                       { round := 2, question := "G4", answer := "C4",
                                         correct := false },
                                       { round := 3, question := "G4", answer := "G4",
                                         correct := true }],
                           isComplete := true },
            result := none }
          "C4" 0 = Except.ok out ∧
        out.status = "complete" ∧
        out.state.quiz = some
          { activeNotes := ["C4", "G4"], currentQuestion := "G4",
            roundNumber := 3, totalRounds := 3,
            results := [{ round := 1, question := "C4", answer := "C4", correct := true },
                        { round := 2, question := "G4", answer := "C4", correct := false },
                        { round := 3, question := "G4", answer := "G4", correct := true }] ++
              [{ round := 3, question := "G4", answer := "C4", correct := "C4" == "G4" }],
            isComplete := true } ∧
        (out.state.quiz.map fun q' => q'.results.length) = some (3 + 1) :=
  answer_quiz_after_complete
    { phase := some Phase.QUIZ, listen := none, explore := none,
      quiz := some { activeNotes := ["C4", "G4"], currentQuestion := "G4",
                     roundNumber := 3, totalRounds := 3,
                     results := [{ round := 1, question := "C4", answer := "C4",
                                   correct := true },
                                 { round := 2, question := "G4", answer := "C4",
                                   correct := false },
                                 { round := 3, question := "G4", answer := "G4",
                                   correct := true }],
                     isComplete := true },
      result := none }
    { activeNotes := ["C4", "G4"], currentQuestion := "G4",
      roundNumber := 3, totalRounds := 3,
      results := [{ round := 1, question := "C4", answer := "C4", correct := true },
                  { round := 2, question := "G4", answer := "C4", correct := false },
                  { round := 3, question := "G4", answer := "G4", correct := true }],
      isComplete := true }
    "C4" 0 rfl rfl rfl rfl

end PerfectPitch
